import Mathlib

/-!
Shallow embedding of the rusty64 MOS 6502 CPU core and its address-bus
abstraction, translated from the Rust sources:

* `src/cpu/mos6502/mod.rs`        — CPU state, stack helpers, interrupt sequencer, `step`
* `src/cpu/mos6502/instruction.rs`— instruction semantics (`Instruction::execute`)
* `src/cpu/mos6502/operand.rs`    — addressing modes (`Operand::addr/get/set`)
* `src/addr/masked.rs`            — `Masked(value, mask)` addresses (`Masked::map`)
* `src/mem/rom.rs`                — read-only memory

8-bit and 16-bit machine integers are modelled as `Nat` with explicit
`% 256` / `% 65536` at the points where the Rust types wrap or truncate.
Rust panics (illegal opcode, decimal-mode arithmetic, operand misuse) are
modelled with `Except EmuError`.
-/

/-- The address bus: maps 16-bit addresses to bytes (`Addressable` with `A = u16`).
A total function models RAM semantics over the full address space. -/
def Mem : Type := Nat → Nat

/-- Bus read, `Addressable::get`: the byte at a 16-bit address. -/
def Mem.read (m : Mem) (a : Nat) : Nat := m (a % 65536) % 256

/-- Bus write, `Addressable::set`: store a byte at a 16-bit address. -/
def Mem.write (m : Mem) (a v : Nat) : Mem :=
  fun a' => if a' = a % 65536 then v % 256 else m a'

/-- `Addressable::get_le::<u16>` at a plain (unmasked) address: two bytes at
successive (wrapping) addresses, low byte first. -/
def Mem.getLE16 (m : Mem) (a : Nat) : Nat :=
  Mem.read m a + 256 * Mem.read m ((a + 1) % 65536)

/-- The unmasked value of `Masked(base, 0xff00).offset(k)` for a nonnegative
offset `k` (`Masked::map` in `src/addr/masked.rs`: the bits set in the mask
are preserved, the others are taken from the offset result). -/
def maskedPageOffset (base k : Nat) : Nat :=
  (base &&& 0xff00) ||| (((base + k) % 65536) &&& 0xff)

/-- Stack byte address used by `Mos6502::push`/`pop`:
`Masked($0100, $ff00).offset(k)`, i.e. the stack never leaves page `$01xx`. -/
def stackAddr (k : Nat) : Nat := maskedPageOffset 0x100 k

-- The MOS6502 status flag bits (`StatusFlags` bitflags in `mod.rs`).
namespace StatusFlags
def CARRY : Nat := 1
def ZERO : Nat := 2
def INTERRUPT_DISABLE : Nat := 4
def DECIMAL : Nat := 8
def BREAK : Nat := 16
def UNUSED_ALWAYS_ON : Nat := 32
def OVERFLOW : Nat := 64
def NEGATIVE : Nat := 128
end StatusFlags

/-- `StatusFlags::insert`. -/
def srInsert (sr f : Nat) : Nat := sr ||| f

/-- `StatusFlags::remove` (`bits &= !other` on `u8`). -/
def srRemove (sr f : Nat) : Nat := sr &&& (255 ^^^ f)

/-- `StatusFlags::contains`. -/
def srContains (sr f : Nat) : Bool := sr &&& f != 0

/-- `StatusFlags::set`. -/
def srSetFlag (sr f : Nat) (b : Bool) : Nat :=
  if b then srInsert sr f else srRemove sr f

/-- The MOS6502 processor state (`struct Mos6502` plus its bus). -/
@[ext]
structure Mos6502 where
  pc : Nat
  ac : Nat
  x : Nat
  y : Nat
  sr : Nat
  sp : Nat
  mem : Mem
  reset : Bool
  nmi : Bool
  irq : Bool

/-- `Mos6502::new`: initial state; the RESET line starts latched. -/
def Mos6502.new (mem : Mem) : Mos6502 :=
  { pc := 0x0000, ac := 0x00, x := 0x00, y := 0x00,
    sr := StatusFlags.UNUSED_ALWAYS_ON, sp := 0x00,
    mem := mem, reset := true, nmi := false, irq := false }

/-- `Mos6502::set_zn`: set ZERO and NEGATIVE from a byte value. -/
def Mos6502.setZN (s : Mos6502) (v : Nat) : Mos6502 :=
  { s with sr := srSetFlag (srSetFlag s.sr StatusFlags.ZERO (v == 0))
                   StatusFlags.NEGATIVE (decide (128 ≤ v)) }

/-- `Mos6502::push::<u8>`: SP is decremented (wrapping in the stack page),
then the byte is stored at `Masked($0100, $ff00).offset(SP + 1)`. -/
def Mos6502.push8 (s : Mos6502) (v : Nat) : Mos6502 :=
  let sp' := (s.sp + 255) % 256
  { s with sp := sp', mem := Mem.write s.mem (stackAddr (sp' + 1)) v }

/-- `Mos6502::push::<u16>`: SP is decremented by 2, then the word is stored
little-endian by `set_le` at the masked stack address and its in-page
successor. -/
def Mos6502.push16 (s : Mos6502) (v : Nat) : Mos6502 :=
  let sp' := (s.sp + 254) % 256
  let a0 := stackAddr (sp' + 1)
  let a1 := maskedPageOffset a0 1
  { s with sp := sp',
           mem := Mem.write (Mem.write s.mem a0 v) a1 (v / 256) }

/-- `Mos6502::pop::<u8>`: read at `Masked($0100, $ff00).offset(SP + 1)`,
then increment SP (wrapping). -/
def Mos6502.pop8 (s : Mos6502) : Nat × Mos6502 :=
  let a := stackAddr (s.sp + 1)
  (Mem.read s.mem a, { s with sp := (s.sp + 1) % 256 })

/-- `Mos6502::pop::<u16>`: read a little-endian word at the masked stack
address and its in-page successor, then increment SP by 2 (wrapping). -/
def Mos6502.pop16 (s : Mos6502) : Nat × Mos6502 :=
  let a0 := stackAddr (s.sp + 1)
  let a1 := maskedPageOffset a0 1
  (Mem.read s.mem a0 + 256 * Mem.read s.mem a1, { s with sp := (s.sp + 2) % 256 })

/-- `Mos6502::nmi`: latch the NMI line. -/
def Mos6502.triggerNmi (s : Mos6502) : Mos6502 := { s with nmi := true }

/-- `Mos6502::irq`: latch the IRQ line. -/
def Mos6502.triggerIrq (s : Mos6502) : Mos6502 := { s with irq := true }

/-- `Mos6502::reset` (trait `CPU`): latch the RESET line. -/
def Mos6502.triggerReset (s : Mos6502) : Mos6502 := { s with reset := true }

/-- Processor instructions (`enum Instruction`). -/
inductive Instruction
  | LDA | LDX | LDY | STA | STX | STY
  | TAX | TAY | TXA | TYA
  | TSX | TXS | PHA | PHP | PLA | PLP
  | AND | EOR | ORA | BIT
  | ADC | SBC | CMP | CPX | CPY
  | INC | INX | INY | DEC | DEX | DEY
  | ASL | LSR | ROL | ROR
  | JMP | JSR | RTS
  | BCC | BCS | BEQ | BMI | BNE | BPL | BVC | BVS
  | CLC | CLD | CLI | CLV | SEC | SED | SEI
  | BRK | NOP | RTI
  deriving DecidableEq, Repr

/-- Instruction operands / addressing modes (`enum Operand`). Payload bytes
and words are the raw values fetched by the decoder. -/
inductive Operand
  | Implied
  | Immediate (b : Nat)
  | Accumulator
  | Relative (d : Nat)
  | Absolute (w : Nat)
  | AbsoluteIndexedWithX (w : Nat)
  | AbsoluteIndexedWithY (w : Nat)
  | Indirect (w : Nat)
  | ZeroPage (b : Nat)
  | ZeroPageIndexedWithX (b : Nat)
  | ZeroPageIndexedWithY (b : Nat)
  | ZeroPageIndexedWithXIndirect (b : Nat)
  | ZeroPageIndirectIndexedWithY (b : Nat)
  deriving DecidableEq, Repr

/-- The fatal errors of the core (`panic!` sites): unsupported decimal-mode
arithmetic, operand misuse, and illegal opcodes. -/
inductive EmuError
  | invalidOperand
  | decimalMode
  | illegalOpcode
  deriving DecidableEq, Repr

/-- `u16::wrapping_sub` via `Address::offset` with a negative amount. -/
def sub16 (a b : Nat) : Nat := (a + 65536 - b % 65536) % 65536

/-- `u16::offset(d as i16)` where `d` is the raw byte of an `i8`:
wrapping add of the sign-extended offset. -/
def u16OffsetSigned (a d : Nat) : Nat :=
  if d < 128 then (a + d) % 65536 else (a + 65536 - (256 - d)) % 65536

/-- `Operand::addr`: the address an operand targets
(`src/cpu/mos6502/operand.rs`). `Indirect` reads the word at
`Masked(addr, $ff00)`, so the high byte never leaves the page (MSB bug);
zero-page indexing wraps inside the zero page. -/
def Operand.addr (op : Operand) (s : Mos6502) : Except EmuError Nat :=
  match op with
  | .Implied => .error .invalidOperand
  | .Immediate _ => .error .invalidOperand
  | .Accumulator => .error .invalidOperand
  | .Relative d => .ok (u16OffsetSigned s.pc d)
  | .Absolute w => .ok w
  | .AbsoluteIndexedWithX w => .ok ((w + s.x) % 65536)
  | .AbsoluteIndexedWithY w => .ok ((w + s.y) % 65536)
  | .Indirect w =>
      .ok (Mem.read s.mem w + 256 * Mem.read s.mem (maskedPageOffset w 1))
  | .ZeroPage b => .ok b
  | .ZeroPageIndexedWithX b => .ok ((b + s.x) % 256)
  | .ZeroPageIndexedWithY b => .ok ((b + s.y) % 256)
  | .ZeroPageIndexedWithXIndirect b => .ok (Mem.getLE16 s.mem ((b + s.x) % 256))
  | .ZeroPageIndirectIndexedWithY b => .ok ((Mem.getLE16 s.mem b + s.y) % 65536)

/-- `Operand::get`: the value an operand reads. -/
def Operand.get (op : Operand) (s : Mos6502) : Except EmuError Nat :=
  match op with
  | .Implied => .error .invalidOperand
  | .Immediate v => .ok v
  | .Accumulator => .ok s.ac
  | .Relative _ => .error .invalidOperand
  | other => do
      let a ← Operand.addr other s
      .ok (Mem.read s.mem a)

/-- `Operand::set`: write a value through an operand. -/
def Operand.set (op : Operand) (s : Mos6502) (v : Nat) : Except EmuError Mos6502 :=
  match op with
  | .Implied => .error .invalidOperand
  | .Immediate _ => .error .invalidOperand
  | .Accumulator => .ok { s with ac := v }
  | .Relative _ => .error .invalidOperand
  | other => do
      let a ← Operand.addr other s
      .ok { s with mem := Mem.write s.mem a v }

/-- `Instruction::execute` (`src/cpu/mos6502/instruction.rs`): execute one
decoded instruction on the CPU state. Decimal-mode ADC/SBC and operand
misuse are fatal (`Except.error`); the error aborts before any state of the
instruction takes effect. -/
def Instruction.execute (i : Instruction) (s : Mos6502) (op : Operand) :
    Except EmuError Mos6502 :=
  match i with
  | .LDA => do
      let v ← op.get s
      .ok (({ s with ac := v }).setZN v)
  | .LDX => do
      let v ← op.get s
      .ok (({ s with x := v }).setZN v)
  | .LDY => do
      let v ← op.get s
      .ok (({ s with y := v }).setZN v)
  | .STA => op.set s s.ac
  | .STX => op.set s s.x
  | .STY => op.set s s.y
  | .TAX => .ok (({ s with x := s.ac }).setZN s.ac)
  | .TAY => .ok (({ s with y := s.ac }).setZN s.ac)
  | .TXA => .ok (({ s with ac := s.x }).setZN s.x)
  | .TYA => .ok (({ s with ac := s.y }).setZN s.y)
  | .TSX => .ok (({ s with x := s.sp }).setZN s.sp)
  | .TXS => .ok { s with sp := s.x }
  | .PHA => .ok (s.push8 s.ac)
  | .PHP => .ok (s.push8 s.sr)
  | .PLA =>
      let (v, s1) := s.pop8
      .ok (({ s1 with ac := v }).setZN v)
  | .PLP =>
      let (v, s1) := s.pop8
      .ok { s1 with sr := srInsert v StatusFlags.UNUSED_ALWAYS_ON }
  | .AND => do
      let v ← op.get s
      let r := s.ac &&& v
      .ok (({ s with ac := r }).setZN r)
  | .EOR => do
      let v ← op.get s
      let r := s.ac ^^^ v
      .ok (({ s with ac := r }).setZN r)
  | .ORA => do
      let v ← op.get s
      let r := s.ac ||| v
      .ok (({ s with ac := r }).setZN r)
  | .BIT => do
      let v ← op.get s
      .ok { s with
            sr := srSetFlag (srSetFlag (srSetFlag s.sr StatusFlags.ZERO
                    ((v &&& s.ac) == 0)) StatusFlags.NEGATIVE ((v &&& 0x80) != 0))
                  StatusFlags.OVERFLOW ((v &&& 0x40) != 0) }
  | .ADC =>
      if srContains s.sr StatusFlags.DECIMAL then .error .decimalMode else do
        let v ← op.get s
        let r1 := (s.ac + v) % 65536
        let r2 := if srContains s.sr StatusFlags.CARRY then (r1 + 1) % 65536 else r1
        let sr1 := srSetFlag s.sr StatusFlags.CARRY ((r2 &&& 0x100) != 0)
        let r := r2 % 256
        let sr2 := srSetFlag sr1 StatusFlags.OVERFLOW
          ((((s.ac ^^^ v) &&& 0x80) == 0) && (((s.ac ^^^ r) &&& 0x80) == 0x80))
        .ok (({ s with sr := sr2, ac := r }).setZN r)
  | .SBC =>
      if srContains s.sr StatusFlags.DECIMAL then .error .decimalMode else do
        let v ← op.get s
        let r1 := sub16 s.ac v
        let r2 := if srContains s.sr StatusFlags.CARRY then r1 else sub16 r1 1
        let sr1 := srSetFlag s.sr StatusFlags.CARRY ((r2 &&& 0x100) == 0)
        let r := r2 % 256
        let sr2 := srSetFlag sr1 StatusFlags.OVERFLOW
          ((((s.ac ^^^ r) &&& 0x80) != 0) && (((s.ac ^^^ v) &&& 0x80) == 0x80))
        .ok (({ s with sr := sr2, ac := r }).setZN r)
  | .CMP => do
      let v ← op.get s
      let r := (s.ac + 256 - v % 256) % 256
      .ok (({ s with sr := srSetFlag s.sr StatusFlags.CARRY (decide (v ≤ s.ac)) }).setZN r)
  | .CPX => do
      let v ← op.get s
      let r := (s.x + 256 - v % 256) % 256
      .ok (({ s with sr := srSetFlag s.sr StatusFlags.CARRY (decide (v ≤ s.x)) }).setZN r)
  | .CPY => do
      let v ← op.get s
      let r := (s.y + 256 - v % 256) % 256
      .ok (({ s with sr := srSetFlag s.sr StatusFlags.CARRY (decide (v ≤ s.y)) }).setZN r)
  | .INC => do
      let v ← op.get s
      let r := (v + 1) % 256
      let s1 ← op.set s r
      .ok (s1.setZN r)
  | .INX =>
      let r := (s.x + 1) % 256
      .ok (({ s with x := r }).setZN r)
  | .INY =>
      let r := (s.y + 1) % 256
      .ok (({ s with y := r }).setZN r)
  | .DEC => do
      let v ← op.get s
      let r := (v + 255) % 256
      let s1 ← op.set s r
      .ok (s1.setZN r)
  | .DEX =>
      let r := (s.x + 255) % 256
      .ok (({ s with x := r }).setZN r)
  | .DEY =>
      let r := (s.y + 255) % 256
      .ok (({ s with y := r }).setZN r)
  | .ASL => do
      let v ← op.get s
      let s1 := { s with sr := srSetFlag s.sr StatusFlags.CARRY ((v &&& 0x80) != 0) }
      let r := v * 2 % 256
      let s2 ← op.set s1 r
      .ok (s2.setZN r)
  | .LSR => do
      let v ← op.get s
      let s1 := { s with sr := srSetFlag s.sr StatusFlags.CARRY ((v &&& 0x01) != 0) }
      let r := v / 2
      let s2 ← op.set s1 r
      .ok (s2.setZN r)
  | .ROL => do
      let carry := srContains s.sr StatusFlags.CARRY
      let v ← op.get s
      let s1 := { s with sr := srSetFlag s.sr StatusFlags.CARRY ((v &&& 0x80) != 0) }
      let r := if carry then v * 2 % 256 ||| 0x01 else v * 2 % 256
      let s2 ← op.set s1 r
      .ok (s2.setZN r)
  | .ROR => do
      let carry := srContains s.sr StatusFlags.CARRY
      let v ← op.get s
      let s1 := { s with sr := srSetFlag s.sr StatusFlags.CARRY ((v &&& 0x01) != 0) }
      let r := if carry then v / 2 ||| 0x80 else v / 2
      let s2 ← op.set s1 r
      .ok (s2.setZN r)
  | .JMP => do
      let a ← op.addr s
      .ok { s with pc := a }
  | .JSR => do
      let s1 := s.push16 (sub16 s.pc 1)
      let a ← op.addr s1
      .ok { s1 with pc := a }
  | .RTS =>
      let (v, s1) := s.pop16
      .ok { s1 with pc := (v + 1) % 65536 }
  | .BCC =>
      if srContains s.sr StatusFlags.CARRY then .ok s
      else do
        let a ← op.addr s
        .ok { s with pc := a }
  | .BCS =>
      if srContains s.sr StatusFlags.CARRY then do
        let a ← op.addr s
        .ok { s with pc := a }
      else .ok s
  | .BEQ =>
      if srContains s.sr StatusFlags.ZERO then do
        let a ← op.addr s
        .ok { s with pc := a }
      else .ok s
  | .BMI =>
      if srContains s.sr StatusFlags.NEGATIVE then do
        let a ← op.addr s
        .ok { s with pc := a }
      else .ok s
  | .BNE =>
      if srContains s.sr StatusFlags.ZERO then .ok s
      else do
        let a ← op.addr s
        .ok { s with pc := a }
  | .BPL =>
      if srContains s.sr StatusFlags.NEGATIVE then .ok s
      else do
        let a ← op.addr s
        .ok { s with pc := a }
  | .BVC =>
      if srContains s.sr StatusFlags.OVERFLOW then .ok s
      else do
        let a ← op.addr s
        .ok { s with pc := a }
  | .BVS =>
      if srContains s.sr StatusFlags.OVERFLOW then do
        let a ← op.addr s
        .ok { s with pc := a }
      else .ok s
  | .CLC => .ok { s with sr := srRemove s.sr StatusFlags.CARRY }
  | .CLD => .ok { s with sr := srRemove s.sr StatusFlags.DECIMAL }
  | .CLI => .ok { s with sr := srRemove s.sr StatusFlags.INTERRUPT_DISABLE }
  | .CLV => .ok { s with sr := srRemove s.sr StatusFlags.OVERFLOW }
  | .SEC => .ok { s with sr := srInsert s.sr StatusFlags.CARRY }
  | .SED => .ok { s with sr := srInsert s.sr StatusFlags.DECIMAL }
  | .SEI => .ok { s with sr := srInsert s.sr StatusFlags.INTERRUPT_DISABLE }
  | .BRK =>
      let s1 := { s with sr := srInsert s.sr StatusFlags.BREAK }
      let s2 := s1.push16 ((s1.pc + 1) % 65536)
      let s3 := s2.push8 s2.sr
      .ok { s3 with sr := srInsert s3.sr StatusFlags.INTERRUPT_DISABLE,
                    pc := Mem.getLE16 s3.mem 0xfffe }
  | .NOP => .ok s
  | .RTI =>
      let (v, s1) := s.pop8
      let s2 := { s1 with sr := v }
      let (p, s3) := s2.pop16
      .ok { s3 with pc := p }

/-- `Mos6502::next::<u8>`: fetch the byte at PC and advance PC. -/
def Mos6502.fetch8 (s : Mos6502) : Nat × Mos6502 :=
  (Mem.read s.mem s.pc, { s with pc := (s.pc + 1) % 65536 })

/-- `Mos6502::next::<u16>`: fetch a little-endian word at PC and advance PC
by 2. -/
def Mos6502.fetch16 (s : Mos6502) : Nat × Mos6502 :=
  (Mem.getLE16 s.mem s.pc, { s with pc := (s.pc + 2) % 65536 })

/-- `Mos6502::next_instruction`: fetch and decode one opcode, advancing PC
past the opcode and its operand bytes. Returns base cycle count,
instruction and operand; `none` for an illegal opcode. -/
def Mos6502.nextInstruction (s : Mos6502) :
    Option (Nat × Instruction × Operand × Mos6502) :=
  let (opcode, s) := s.fetch8
  match opcode with
  | 0x00 => some (7, .BRK, .Implied, s)
  | 0x01 => let (b, s) := s.fetch8; some (6, .ORA, .ZeroPageIndexedWithXIndirect b, s)
  | 0x05 => let (b, s) := s.fetch8; some (3, .ORA, .ZeroPage b, s)
  | 0x06 => let (b, s) := s.fetch8; some (5, .ASL, .ZeroPage b, s)
  | 0x08 => some (3, .PHP, .Implied, s)
  | 0x09 => let (b, s) := s.fetch8; some (2, .ORA, .Immediate b, s)
  | 0x0a => some (2, .ASL, .Accumulator, s)
  | 0x0d => let (w, s) := s.fetch16; some (4, .ORA, .Absolute w, s)
  | 0x0e => let (w, s) := s.fetch16; some (6, .ASL, .Absolute w, s)
  | 0x10 => let (b, s) := s.fetch8; some (2, .BPL, .Relative b, s)
  | 0x11 => let (b, s) := s.fetch8; some (5, .ORA, .ZeroPageIndirectIndexedWithY b, s)
  | 0x15 => let (b, s) := s.fetch8; some (4, .ORA, .ZeroPageIndexedWithX b, s)
  | 0x16 => let (b, s) := s.fetch8; some (6, .ASL, .ZeroPageIndexedWithX b, s)
  | 0x18 => some (2, .CLC, .Implied, s)
  | 0x19 => let (w, s) := s.fetch16; some (4, .ORA, .AbsoluteIndexedWithY w, s)
  | 0x1d => let (w, s) := s.fetch16; some (4, .ORA, .AbsoluteIndexedWithX w, s)
  | 0x1e => let (w, s) := s.fetch16; some (7, .ASL, .AbsoluteIndexedWithX w, s)
  | 0x20 => let (w, s) := s.fetch16; some (6, .JSR, .Absolute w, s)
  | 0x21 => let (b, s) := s.fetch8; some (6, .AND, .ZeroPageIndexedWithXIndirect b, s)
  | 0x24 => let (b, s) := s.fetch8; some (3, .BIT, .ZeroPage b, s)
  | 0x25 => let (b, s) := s.fetch8; some (3, .AND, .ZeroPage b, s)
  | 0x26 => let (b, s) := s.fetch8; some (5, .ROL, .ZeroPage b, s)
  | 0x28 => some (4, .PLP, .Implied, s)
  | 0x29 => let (b, s) := s.fetch8; some (2, .AND, .Immediate b, s)
  | 0x2a => some (2, .ROL, .Accumulator, s)
  | 0x2c => let (w, s) := s.fetch16; some (4, .BIT, .Absolute w, s)
  | 0x2d => let (w, s) := s.fetch16; some (4, .AND, .Absolute w, s)
  | 0x2e => let (w, s) := s.fetch16; some (6, .ROL, .Absolute w, s)
  | 0x30 => let (b, s) := s.fetch8; some (2, .BMI, .Relative b, s)
  | 0x31 => let (b, s) := s.fetch8; some (5, .AND, .ZeroPageIndirectIndexedWithY b, s)
  | 0x35 => let (b, s) := s.fetch8; some (4, .AND, .ZeroPageIndexedWithX b, s)
  | 0x36 => let (b, s) := s.fetch8; some (6, .ROL, .ZeroPageIndexedWithX b, s)
  | 0x38 => some (2, .SEC, .Implied, s)
  | 0x39 => let (w, s) := s.fetch16; some (4, .AND, .AbsoluteIndexedWithY w, s)
  | 0x3d => let (w, s) := s.fetch16; some (4, .AND, .AbsoluteIndexedWithX w, s)
  | 0x3e => let (w, s) := s.fetch16; some (7, .ROL, .AbsoluteIndexedWithX w, s)
  | 0x40 => some (6, .RTI, .Implied, s)
  | 0x41 => let (b, s) := s.fetch8; some (6, .EOR, .ZeroPageIndexedWithXIndirect b, s)
  | 0x45 => let (b, s) := s.fetch8; some (3, .EOR, .ZeroPage b, s)
  | 0x46 => let (b, s) := s.fetch8; some (5, .LSR, .ZeroPage b, s)
  | 0x48 => some (3, .PHA, .Implied, s)
  | 0x49 => let (b, s) := s.fetch8; some (2, .EOR, .Immediate b, s)
  | 0x4a => some (2, .LSR, .Accumulator, s)
  | 0x4c => let (w, s) := s.fetch16; some (3, .JMP, .Absolute w, s)
  | 0x4d => let (w, s) := s.fetch16; some (4, .EOR, .Absolute w, s)
  | 0x4e => let (w, s) := s.fetch16; some (6, .LSR, .Absolute w, s)
  | 0x50 => let (b, s) := s.fetch8; some (2, .BVC, .Relative b, s)
  | 0x51 => let (b, s) := s.fetch8; some (5, .EOR, .ZeroPageIndirectIndexedWithY b, s)
  | 0x55 => let (b, s) := s.fetch8; some (4, .EOR, .ZeroPageIndexedWithX b, s)
  | 0x56 => let (b, s) := s.fetch8; some (6, .LSR, .ZeroPageIndexedWithX b, s)
  | 0x58 => some (2, .CLI, .Implied, s)
  | 0x59 => let (w, s) := s.fetch16; some (4, .EOR, .AbsoluteIndexedWithY w, s)
  | 0x5d => let (w, s) := s.fetch16; some (4, .EOR, .AbsoluteIndexedWithX w, s)
  | 0x5e => let (w, s) := s.fetch16; some (7, .LSR, .AbsoluteIndexedWithX w, s)
  | 0x60 => some (6, .RTS, .Implied, s)
  | 0x61 => let (b, s) := s.fetch8; some (6, .ADC, .ZeroPageIndexedWithXIndirect b, s)
  | 0x65 => let (b, s) := s.fetch8; some (3, .ADC, .ZeroPage b, s)
  | 0x66 => let (b, s) := s.fetch8; some (5, .ROR, .ZeroPage b, s)
  | 0x68 => some (4, .PLA, .Implied, s)
  | 0x69 => let (b, s) := s.fetch8; some (2, .ADC, .Immediate b, s)
  | 0x6a => some (2, .ROR, .Accumulator, s)
  | 0x6c => let (w, s) := s.fetch16; some (5, .JMP, .Indirect w, s)
  | 0x6d => let (w, s) := s.fetch16; some (4, .ADC, .Absolute w, s)
  | 0x6e => let (w, s) := s.fetch16; some (6, .ROR, .Absolute w, s)
  | 0x70 => let (b, s) := s.fetch8; some (2, .BVS, .Relative b, s)
  | 0x71 => let (b, s) := s.fetch8; some (5, .ADC, .ZeroPageIndirectIndexedWithY b, s)
  | 0x75 => let (b, s) := s.fetch8; some (4, .ADC, .ZeroPageIndexedWithX b, s)
  | 0x76 => let (b, s) := s.fetch8; some (6, .ROR, .ZeroPageIndexedWithX b, s)
  | 0x78 => some (2, .SEI, .Implied, s)
  | 0x79 => let (w, s) := s.fetch16; some (4, .ADC, .AbsoluteIndexedWithY w, s)
  | 0x7d => let (w, s) := s.fetch16; some (4, .ADC, .AbsoluteIndexedWithX w, s)
  | 0x7e => let (w, s) := s.fetch16; some (7, .ROR, .AbsoluteIndexedWithX w, s)
  | 0x81 => let (b, s) := s.fetch8; some (6, .STA, .ZeroPageIndexedWithXIndirect b, s)
  | 0x84 => let (b, s) := s.fetch8; some (3, .STY, .ZeroPage b, s)
  | 0x85 => let (b, s) := s.fetch8; some (3, .STA, .ZeroPage b, s)
  | 0x86 => let (b, s) := s.fetch8; some (3, .STX, .ZeroPage b, s)
  | 0x88 => some (2, .DEY, .Implied, s)
  | 0x8a => some (2, .TXA, .Implied, s)
  | 0x8c => let (w, s) := s.fetch16; some (4, .STY, .Absolute w, s)
  | 0x8d => let (w, s) := s.fetch16; some (4, .STA, .Absolute w, s)
  | 0x8e => let (w, s) := s.fetch16; some (4, .STX, .Absolute w, s)
  | 0x90 => let (b, s) := s.fetch8; some (2, .BCC, .Relative b, s)
  | 0x91 => let (b, s) := s.fetch8; some (6, .STA, .ZeroPageIndirectIndexedWithY b, s)
  | 0x94 => let (b, s) := s.fetch8; some (4, .STY, .ZeroPageIndexedWithX b, s)
  | 0x95 => let (b, s) := s.fetch8; some (4, .STA, .ZeroPageIndexedWithX b, s)
  | 0x96 => let (b, s) := s.fetch8; some (4, .STX, .ZeroPageIndexedWithY b, s)
  | 0x98 => some (2, .TYA, .Implied, s)
  | 0x99 => let (w, s) := s.fetch16; some (5, .STA, .AbsoluteIndexedWithY w, s)
  | 0x9a => some (2, .TXS, .Implied, s)
  | 0x9d => let (w, s) := s.fetch16; some (5, .STA, .AbsoluteIndexedWithX w, s)
  | 0xa0 => let (b, s) := s.fetch8; some (2, .LDY, .Immediate b, s)
  | 0xa1 => let (b, s) := s.fetch8; some (6, .LDA, .ZeroPageIndexedWithXIndirect b, s)
  | 0xa2 => let (b, s) := s.fetch8; some (2, .LDX, .Immediate b, s)
  | 0xa4 => let (b, s) := s.fetch8; some (3, .LDY, .ZeroPage b, s)
  | 0xa5 => let (b, s) := s.fetch8; some (3, .LDA, .ZeroPage b, s)
  | 0xa6 => let (b, s) := s.fetch8; some (3, .LDX, .ZeroPage b, s)
  | 0xa8 => some (2, .TAY, .Implied, s)
  | 0xa9 => let (b, s) := s.fetch8; some (2, .LDA, .Immediate b, s)
  | 0xaa => some (2, .TAX, .Implied, s)
  | 0xac => let (w, s) := s.fetch16; some (4, .LDY, .Absolute w, s)
  | 0xad => let (w, s) := s.fetch16; some (4, .LDA, .Absolute w, s)
  | 0xae => let (w, s) := s.fetch16; some (4, .LDX, .Absolute w, s)
  | 0xb0 => let (b, s) := s.fetch8; some (2, .BCS, .Relative b, s)
  | 0xb1 => let (b, s) := s.fetch8; some (5, .LDA, .ZeroPageIndirectIndexedWithY b, s)
  | 0xb4 => let (b, s) := s.fetch8; some (4, .LDY, .ZeroPageIndexedWithX b, s)
  | 0xb5 => let (b, s) := s.fetch8; some (4, .LDA, .ZeroPageIndexedWithX b, s)
  | 0xb6 => let (b, s) := s.fetch8; some (4, .LDX, .ZeroPageIndexedWithY b, s)
  | 0xb8 => some (2, .CLV, .Implied, s)
  | 0xb9 => let (w, s) := s.fetch16; some (4, .LDA, .AbsoluteIndexedWithY w, s)
  | 0xba => some (2, .TSX, .Implied, s)
  | 0xbc => let (w, s) := s.fetch16; some (4, .LDY, .AbsoluteIndexedWithX w, s)
  | 0xbd => let (w, s) := s.fetch16; some (4, .LDA, .AbsoluteIndexedWithX w, s)
  | 0xbe => let (w, s) := s.fetch16; some (4, .LDX, .AbsoluteIndexedWithY w, s)
  | 0xc0 => let (b, s) := s.fetch8; some (2, .CPY, .Immediate b, s)
  | 0xc1 => let (b, s) := s.fetch8; some (6, .CMP, .ZeroPageIndexedWithXIndirect b, s)
  | 0xc4 => let (b, s) := s.fetch8; some (3, .CPY, .ZeroPage b, s)
  | 0xc5 => let (b, s) := s.fetch8; some (3, .CMP, .ZeroPage b, s)
  | 0xc6 => let (b, s) := s.fetch8; some (5, .DEC, .ZeroPage b, s)
  | 0xc8 => some (2, .INY, .Implied, s)
  | 0xc9 => let (b, s) := s.fetch8; some (2, .CMP, .Immediate b, s)
  | 0xca => some (2, .DEX, .Implied, s)
  | 0xcc => let (w, s) := s.fetch16; some (4, .CPY, .Absolute w, s)
  | 0xcd => let (w, s) := s.fetch16; some (4, .CMP, .Absolute w, s)
  | 0xce => let (w, s) := s.fetch16; some (6, .DEC, .Absolute w, s)
  | 0xd0 => let (b, s) := s.fetch8; some (2, .BNE, .Relative b, s)
  | 0xd1 => let (b, s) := s.fetch8; some (5, .CMP, .ZeroPageIndirectIndexedWithY b, s)
  | 0xd5 => let (b, s) := s.fetch8; some (4, .CMP, .ZeroPageIndexedWithX b, s)
  | 0xd6 => let (b, s) := s.fetch8; some (6, .DEC, .ZeroPageIndexedWithX b, s)
  | 0xd8 => some (2, .CLD, .Implied, s)
  | 0xd9 => let (w, s) := s.fetch16; some (4, .CMP, .AbsoluteIndexedWithY w, s)
  | 0xdd => let (w, s) := s.fetch16; some (4, .CMP, .AbsoluteIndexedWithX w, s)
  | 0xde => let (w, s) := s.fetch16; some (7, .DEC, .AbsoluteIndexedWithX w, s)
  | 0xe0 => let (b, s) := s.fetch8; some (2, .CPX, .Immediate b, s)
  | 0xe1 => let (b, s) := s.fetch8; some (6, .SBC, .ZeroPageIndexedWithXIndirect b, s)
  | 0xe4 => let (b, s) := s.fetch8; some (3, .CPX, .ZeroPage b, s)
  | 0xe5 => let (b, s) := s.fetch8; some (3, .SBC, .ZeroPage b, s)
  | 0xe6 => let (b, s) := s.fetch8; some (5, .INC, .ZeroPage b, s)
  | 0xe8 => some (2, .INX, .Implied, s)
  | 0xe9 => let (b, s) := s.fetch8; some (2, .SBC, .Immediate b, s)
  | 0xea => some (2, .NOP, .Implied, s)
  | 0xec => let (w, s) := s.fetch16; some (4, .CPX, .Absolute w, s)
  | 0xed => let (w, s) := s.fetch16; some (4, .SBC, .Absolute w, s)
  | 0xee => let (w, s) := s.fetch16; some (6, .INC, .Absolute w, s)
  | 0xf0 => let (b, s) := s.fetch8; some (2, .BEQ, .Relative b, s)
  | 0xf1 => let (b, s) := s.fetch8; some (5, .SBC, .ZeroPageIndirectIndexedWithY b, s)
  | 0xf5 => let (b, s) := s.fetch8; some (4, .SBC, .ZeroPageIndexedWithX b, s)
  | 0xf6 => let (b, s) := s.fetch8; some (6, .INC, .ZeroPageIndexedWithX b, s)
  | 0xf8 => some (2, .SED, .Implied, s)
  | 0xf9 => let (w, s) := s.fetch16; some (4, .SBC, .AbsoluteIndexedWithY w, s)
  | 0xfd => let (w, s) := s.fetch16; some (4, .SBC, .AbsoluteIndexedWithX w, s)
  | 0xfe => let (w, s) := s.fetch16; some (7, .INC, .AbsoluteIndexedWithX w, s)
  | _ => none

/-- Hard-coded interrupt vector addresses. -/
def NMI_VECTOR : Nat := 0xfffa
def RESET_VECTOR : Nat := 0xfffc
def IRQ_VECTOR : Nat := 0xfffe

/-- `Mos6502::step` (trait `CPU`): service RESET, NMI or IRQ if latched
(in that priority), otherwise decode and execute one instruction.
Returns the new state and the cycle count. -/
def Mos6502.step (s : Mos6502) : Except EmuError (Mos6502 × Nat) :=
  if s.reset then
    .ok ({ s with sr := srInsert s.sr StatusFlags.INTERRUPT_DISABLE,
                  pc := Mem.getLE16 s.mem RESET_VECTOR,
                  reset := false, nmi := false, irq := false }, 6)
  else if s.nmi then
    let s1 := s.push16 s.pc
    let s2 := s1.push8 s1.sr
    .ok ({ s2 with pc := Mem.getLE16 s2.mem NMI_VECTOR, nmi := false }, 7)
  else if s.irq && !(srContains s.sr StatusFlags.INTERRUPT_DISABLE) then
    let s1 := { s with sr := srRemove s.sr StatusFlags.BREAK }
    let s2 := if Mem.read s1.mem s1.pc == 0
              then { s1 with pc := (s1.pc + 1) % 65536 } else s1
    let s3 := s2.push16 s2.pc
    let s4 := s3.push8 s3.sr
    .ok ({ s4 with sr := srInsert s4.sr StatusFlags.INTERRUPT_DISABLE,
                   pc := Mem.getLE16 s4.mem IRQ_VECTOR, irq := false }, 7)
  else
    match s.nextInstruction with
    | some (cycles, inst, op, s1) => do
        let s2 ← inst.execute s1 op
        .ok (s2, cycles)
    | none => .error .illegalOpcode

/-- Read-only memory (`src/mem/rom.rs`): a byte vector; `get` beyond the
last address is fatal (modelled as `none`). -/
structure Rom where
  data : List Nat

/-- `Rom::capacity`. -/
def Rom.capacity (r : Rom) : Nat := r.data.length

/-- `Rom::get` (`impl Addressable for Rom`). -/
def Rom.romGet (r : Rom) (a : Nat) : Option Nat := r.data[a]?

/-- `Rom::set` (`impl Addressable for Rom`): log a warning and do nothing —
the ROM value is returned unchanged. -/
def Rom.romSet (r : Rom) (_a _d : Nat) : Rom := r

/-- External interrupt lines that can be latched between steps
(`Mos6502::nmi` / `Mos6502::irq`). -/
inductive IntLine
  | nmi
  | irq
  deriving DecidableEq, Repr

/-- Latch a sequence of NMI/IRQ line triggers, in order. -/
def applyLines : List IntLine → Mos6502 → Mos6502
  | [], s => s
  | .nmi :: ls, s => applyLines ls s.triggerNmi
  | .irq :: ls, s => applyLines ls s.triggerIrq

/-- The branch condition tested by each of the eight branch opcodes in
`Instruction::execute` (BPL/BMI/BVC/BVS/BCC/BCS/BNE/BEQ). -/
def branchTaken (opcode sr : Nat) : Bool :=
  match opcode with
  | 0x10 => !(srContains sr StatusFlags.NEGATIVE)
  | 0x30 => srContains sr StatusFlags.NEGATIVE
  | 0x50 => !(srContains sr StatusFlags.OVERFLOW)
  | 0x70 => srContains sr StatusFlags.OVERFLOW
  | 0x90 => !(srContains sr StatusFlags.CARRY)
  | 0xb0 => srContains sr StatusFlags.CARRY
  | 0xd0 => !(srContains sr StatusFlags.ZERO)
  | 0xf0 => srContains sr StatusFlags.ZERO
  | _ => false

/-- The residue mod 2^16 of the signed value of an offset byte: `d` itself
for `d < 128`, `d - 256 + 65536` otherwise. -/
def signedOffset (d : Nat) : Nat := if d < 128 then d else 65280 + d

/-- The all-zero bus (a freshly zeroed RAM of full capacity). -/
def zeroBus : Mem := fun _ => 0

/-- `TestMemory` (`src/mem/test.rs`): the byte at an address is the u8 sum
of the address's low and high bytes. -/
def testMemory : Mem := fun a => (a % 256 + a / 256 % 256) % 256

/-- Bus holding an SR byte with bit 5 clear at `$01FD` and the word `$1234`
at `$01FE/$01FF` (a stack as left by an interrupt whose pushed SR was
forged to `$00`). -/
def rtiBus : Mem := fun a =>
  if a = 0x01fd then 0x00 else if a = 0x01fe then 0x34 else
  if a = 0x01ff then 0x12 else 0

/-- CPU about to execute RTI with SP = `$FC` over `rtiBus`. -/
def rtiFailState : Mos6502 :=
  { Mos6502.new rtiBus with sr := 0x20, sp := 0xfc, reset := false }

/-- CPU with SR = `$20` (B flag clear) and SP = 0, about to execute PHP. -/
def phpState : Mos6502 :=
  { Mos6502.new zeroBus with sr := 0x20, sp := 0x00, reset := false }

/-- CPU with the D (decimal) flag set. -/
def decimalState : Mos6502 :=
  { Mos6502.new zeroBus with sr := 0x28, reset := false }

/-- CPU with the D (decimal) flag clear. -/
def binaryState : Mos6502 :=
  { Mos6502.new zeroBus with sr := 0x20, reset := false }

/-- CPU with SP = 0 over the zero bus (stack-wrap scenario). -/
def stackState : Mos6502 :=
  { Mos6502.new zeroBus with sp := 0x00, reset := false }

/-- CPU over the synthetic test memory (for the JMP-indirect scenario). -/
def indirectState : Mos6502 :=
  { Mos6502.new testMemory with reset := false }

/-- Bus holding the little-endian reset vector `$1234` at `$FFFC`. -/
def resetVecBus : Mem := fun a =>
  if a = 0xfffc then 0x34 else if a = 0xfffd then 0x12 else 0

/-- Freshly constructed CPU over `resetVecBus` (RESET latched). -/
def resetState : Mos6502 := Mos6502.new resetVecBus

/-- Bus with a BRK opcode at `$1000` and IRQ vector `$2000`. -/
def irqBrkBus : Mem := fun a => if a = 0xffff then 0x20 else 0

/-- CPU at PC = `$1000` with the IRQ line latched, I clear, and a BRK
opcode as next instruction byte. -/
def irqBrkState : Mos6502 :=
  { Mos6502.new irqBrkBus with pc := 0x1000, sr := 0x20, sp := 0xff,
                               reset := false, irq := true }

/-- Bus with a BNE opcode at `$1337` and offset byte `$33`. -/
def branchBus : Mem := fun a =>
  if a = 0x1337 then 0xd0 else if a = 0x1338 then 0x33 else 0

/-- CPU about to fetch the BNE at `$1337` with the Z flag clear. -/
def branchState : Mos6502 :=
  { Mos6502.new branchBus with pc := 0x1337, sr := 0x20, reset := false }
-- Basic arithmetic facts about the masked stack addressing.

theorem land255_eq_mod (x : Nat) : x &&& 255 = x % 256 := by
  have h := Nat.and_pow_two_sub_one_eq_mod x 8
  simpa using h

set_option maxRecDepth 4096 in
theorem lor256_eq_add {r : Nat} (h : r < 256) : 256 ||| r = 256 + r := by
  have hall : ∀ x : Fin 256, 256 ||| x.val = 256 + x.val := by decide
  simpa using hall ⟨r, h⟩

theorem stackAddr_eq (k : Nat) : stackAddr k = 256 + k % 256 := by
  unfold stackAddr maskedPageOffset
  rw [land255_eq_mod, Nat.mod_mod_of_dvd _ (by norm_num)]
  have h1 : (256 &&& 65280) = 256 := by decide
  have h2 : (256 + k) % 256 = k % 256 := by omega
  rw [h1, h2, lor256_eq_add (Nat.mod_lt _ (by norm_num))]

set_option maxRecDepth 4096 in
theorem maskedPageOffset_stackAddr (r : Nat) (h : r < 256) :
    maskedPageOffset (256 + r) 1 = 256 + (r + 1) % 256 := by
  unfold maskedPageOffset
  rw [land255_eq_mod, Nat.mod_mod_of_dvd _ (by norm_num)]
  have h1 : ∀ x : Fin 256, (256 + x.val) &&& 65280 = 256 := by decide
  have h2 : (256 + r + 1) % 256 = (r + 1) % 256 := by omega
  rw [h1 ⟨r, h⟩, h2, lor256_eq_add (Nat.mod_lt _ (by norm_num))]

theorem Mem.read_lt (m : Mem) (a : Nat) : Mem.read m a < 256 :=
  Nat.mod_lt _ (by norm_num)

theorem Mem.read_write_self (m : Mem) (a v : Nat) (h : a < 65536) :
    Mem.read (Mem.write m a v) a = v % 256 := by
  unfold Mem.read Mem.write
  rw [Nat.mod_eq_of_lt h]
  simp [Nat.mod_eq_of_lt h, Nat.mod_mod_of_dvd]

theorem Mem.read_write_other (m : Mem) (a v b : Nat) (h : b % 65536 ≠ a % 65536) :
    Mem.read (Mem.write m a v) b = Mem.read m b := by
  unfold Mem.read Mem.write
  rw [if_neg h]


theorem srRemove_lt (sr f : Nat) (h : sr < 256) : srRemove sr f < 256 :=
  Nat.lt_of_le_of_lt Nat.and_le_left h

theorem applyLines_reset (ls : List IntLine) (s : Mos6502) :
    (applyLines ls s).reset = s.reset := by
  induction ls generalizing s with
  | nil => rfl
  | cons l ls ih =>
      cases l <;> simp [applyLines, Mos6502.triggerNmi, Mos6502.triggerIrq, ih]

theorem applyLines_sr (ls : List IntLine) (s : Mos6502) :
    (applyLines ls s).sr = s.sr := by
  induction ls generalizing s with
  | nil => rfl
  | cons l ls ih =>
      cases l <;> simp [applyLines, Mos6502.triggerNmi, Mos6502.triggerIrq, ih]

theorem applyLines_mem (ls : List IntLine) (s : Mos6502) :
    (applyLines ls s).mem = s.mem := by
  induction ls generalizing s with
  | nil => rfl
  | cons l ls ih =>
      cases l <;> simp [applyLines, Mos6502.triggerNmi, Mos6502.triggerIrq, ih]

theorem u16OffsetSigned_post_fetch (a d : Nat) (hd : d < 256) :
    u16OffsetSigned ((a + 2) % 65536) d = (a + 2 + signedOffset d) % 65536 := by
  unfold u16OffsetSigned signedOffset
  split <;> omega

/-- C8: For every ROM, address and byte, `set` leaves the ROM's observable
state completely unchanged — every `get` returns the same result as before
and `capacity` is unchanged (writes are logged and ignored). -/
theorem rom_set_ignored (r : Rom) (a d a' : Nat) :
    (r.romSet a d).romGet a' = r.romGet a' ∧
    (r.romSet a d).capacity = r.capacity :=
  ⟨rfl, rfl⟩

/-- C1: the code does NOT force SR bit 5 on RTI. Executing RTI on a CPU
whose stack holds the SR byte `$00` at `$01FD` and the word `$1234` above
it sets SR to `$00` — bit 5 reads 0 afterwards — while PC is correctly
popped as `$1234` without adding 1. This contradicts the claim that RTI
pops SR with bit 5 forced to 1 (the flag is declared
`UNUSED_ALWAYS_ON_FLAG`, and PLP does force it, so the claim reflects the
intent). -/
theorem rti_pops_sr_verbatim :
    (Instruction.execute .RTI rtiFailState .Implied).map
        (fun s => (s.sr, s.sr &&& 32, s.pc, s.sp)) =
      .ok (0, 0, 0x1234, 0xff) := by
  rfl

/-- C2 counterexample: with SR = `$20` (B flag clear), PHP pushes the byte
`$20`, whose bit 4 is 0 — the pushed byte does not always have bit 4 = 1. -/
theorem php_pushed_bit4_clear :
    (Instruction.execute .PHP phpState .Implied).map
        (fun s => (Mem.read s.mem 0x100, Mem.read s.mem 0x100 &&& 16)) =
      .ok (0x20, 0) := by
  rfl

/-- C2 (amended): PHP pushes exactly one byte — the current SR contents,
verbatim. The pushed byte's bit 5 and bit 4 equal the corresponding live SR
bits; bit 4 is not forced to 1. -/
theorem php_pushes_live_sr (s : Mos6502) (hsr : s.sr < 256) :
    (Instruction.execute .PHP s .Implied).map
        (fun s' => (Mem.read s'.mem (256 + s.sp % 256), s'.sp, s'.sr, s'.ac)) =
      .ok (s.sr, (s.sp + 255) % 256, s.sr, s.ac) := by
  simp only [Instruction.execute, Mos6502.push8, Except.map, stackAddr_eq]
  rw [show 256 + ((s.sp + 255) % 256 + 1) % 256 = 256 + s.sp % 256 from by omega]
  rw [Mem.read_write_self _ _ _ (by omega), Nat.mod_eq_of_lt hsr]

/-- Witness for C2's amended theorem at SR = `$20`, SP = 0. -/
theorem php_pushes_live_sr_witness :
    phpState.sr < 256 ∧
    (Instruction.execute .PHP phpState .Implied).map
        (fun s' => (Mem.read s'.mem (256 + phpState.sp % 256), s'.sp, s'.sr, s'.ac)) =
      .ok (phpState.sr, (phpState.sp + 255) % 256, phpState.sr, phpState.ac) :=
  ⟨by decide, php_pushes_live_sr phpState (by decide)⟩

/-- C7: with the D flag set, executing ADC or SBC is a fatal error raised
before the operand is even read (so no register, flag or memory change
takes effect); with D clear, ADC and SBC never raise this error. -/
theorem adc_sbc_decimal_fatal (s : Mos6502) (op : Operand) :
    (srContains s.sr StatusFlags.DECIMAL = true →
       Instruction.execute .ADC s op = .error .decimalMode ∧
       Instruction.execute .SBC s op = .error .decimalMode) ∧
    (srContains s.sr StatusFlags.DECIMAL = false →
       Instruction.execute .ADC s op ≠ .error .decimalMode ∧
       Instruction.execute .SBC s op ≠ .error .decimalMode) := by
  constructor
  · intro h
    constructor <;> simp [Instruction.execute, h]
  · intro h
    constructor <;>
      cases op <;>
        simp [Instruction.execute, h, Operand.get, Operand.addr, bind, Except.bind]

/-- Witness for C7: ADC faults in decimal mode and succeeds in binary mode
at concrete states. -/
theorem adc_sbc_decimal_fatal_witness :
    srContains decimalState.sr StatusFlags.DECIMAL = true ∧
    srContains binaryState.sr StatusFlags.DECIMAL = false ∧
    Instruction.execute .ADC decimalState (.Immediate 5) = .error .decimalMode ∧
    Instruction.execute .ADC binaryState (.Immediate 5) ≠ .error .decimalMode :=
  ⟨by decide, by decide,
   ((adc_sbc_decimal_fatal decimalState (.Immediate 5)).1 (by decide)).1,
   ((adc_sbc_decimal_fatal binaryState (.Immediate 5)).2 (by decide)).1⟩

set_option maxRecDepth 8192 in
/-- C4: for a base word of the form `$HHFF`, the target of
`Operand::Indirect` is read little-endian with the low byte at `$HHFF` and
the high byte at `$HH00` (= base + 1 - 256), wrapping inside the page
instead of carrying into `$(HH+1)00` (the JMP-indirect MSB bug). -/
theorem indirect_addr_page_wrap (s : Mos6502) (w : Nat)
    (hw : w < 65536) (hlo : w % 256 = 0xff) :
    Operand.addr (.Indirect w) s =
      .ok (Mem.read s.mem w + 256 * Mem.read s.mem (w + 1 - 256)) := by
  have hkey : maskedPageOffset w 1 = w + 1 - 256 := by
    unfold maskedPageOffset
    rw [land255_eq_mod, Nat.mod_mod_of_dvd _ (by norm_num)]
    have h1 : (w + 1) % 256 = 0 := by omega
    have h2 : ∀ x : Fin 256, (256 * x.val + 255) &&& 65280 = 256 * x.val := by decide
    have h3 : w = 256 * (w / 256) + 255 := by omega
    have h4 : w / 256 < 256 := by omega
    calc (w &&& 65280) ||| (w + 1) % 256
        = w &&& 65280 := by rw [h1]; simp
      _ = (256 * (w / 256) + 255) &&& 65280 := by rw [← h3]
      _ = 256 * (w / 256) := h2 ⟨w / 256, h4⟩
      _ = w + 1 - 256 := by omega
  simp only [Operand.addr]
  rw [hkey]

/-- Witness for C4 at base `$C0FF` over the synthetic test memory:
the effective address combines `mem[$C0FF]` and `mem[$C000]`. -/
theorem indirect_addr_page_wrap_witness :
    0xc0ff < 65536 ∧ 0xc0ff % 256 = 0xff ∧
    Operand.addr (.Indirect 0xc0ff) indirectState =
      .ok (Mem.read indirectState.mem 0xc0ff +
           256 * Mem.read indirectState.mem (0xc0ff + 1 - 256)) :=
  ⟨by decide, by decide, indirect_addr_page_wrap indirectState 0xc0ff (by decide) (by decide)⟩

/-- C5: `push(v)` writes `v` to the single stack-page address `$0100 + SP`
(so every byte written lies in `$0100..$01FF`), and a subsequent `pop()`
returns `v` and restores SP; starting from SP = 0 the byte is stored at
`$0100` and SP wraps to `$FF`. -/
theorem push_pop_roundtrip (s : Mos6502) (v : Nat)
    (hsp : s.sp < 256) (hv : v < 256) :
    (Mos6502.pop8 (Mos6502.push8 s v)).1 = v ∧
    (Mos6502.pop8 (Mos6502.push8 s v)).2.sp = s.sp ∧
    (Mos6502.push8 s v).mem = Mem.write s.mem (256 + s.sp) v ∧
    256 ≤ 256 + s.sp ∧ 256 + s.sp ≤ 511 ∧
    (s.sp = 0 → (Mos6502.push8 s v).sp = 0xff ∧
      Mem.read (Mos6502.push8 s v).mem 0x100 = v) := by
  have haddr : 256 + ((s.sp + 255) % 256 + 1) % 256 = 256 + s.sp := by omega
  refine ⟨?_, ?_, ?_, by omega, by omega, ?_⟩
  · simp only [Mos6502.pop8, Mos6502.push8, stackAddr_eq, haddr]
    rw [Mem.read_write_self _ _ _ (by omega), Nat.mod_eq_of_lt hv]
  · simp only [Mos6502.pop8, Mos6502.push8]
    omega
  · simp only [Mos6502.push8, stackAddr_eq, haddr]
  · intro h0
    constructor
    · simp only [Mos6502.push8]
      omega
    · simp only [Mos6502.push8, stackAddr_eq, haddr, h0]
      rw [Mem.read_write_self _ _ _ (by omega), Nat.mod_eq_of_lt hv]

/-- Witness for C5 at SP = 0, v = `$12` over the zero bus. -/
theorem push_pop_roundtrip_witness :
    stackState.sp < 256 ∧ 0x12 < 256 ∧
    ((Mos6502.pop8 (Mos6502.push8 stackState 0x12)).1 = 0x12 ∧
     (Mos6502.pop8 (Mos6502.push8 stackState 0x12)).2.sp = stackState.sp ∧
     (Mos6502.push8 stackState 0x12).mem =
       Mem.write stackState.mem (256 + stackState.sp) 0x12 ∧
     256 ≤ 256 + stackState.sp ∧ 256 + stackState.sp ≤ 511 ∧
     (stackState.sp = 0 → (Mos6502.push8 stackState 0x12).sp = 0xff ∧
       Mem.read (Mos6502.push8 stackState 0x12).mem 0x100 = 0x12)) :=
  ⟨by decide, by decide, push_pop_roundtrip stackState 0x12 (by decide) (by decide)⟩

/-- C6: with the RESET line latched, `step` sets the I flag, loads PC from
the little-endian word at `$FFFC`, clears all three latches, leaves every
other register and the bus untouched (no instruction is decoded), and
returns 6 cycles. -/
theorem step_reset_sequence (s : Mos6502) (h : s.reset = true) :
    Mos6502.step s =
      .ok ({ s with sr := srInsert s.sr StatusFlags.INTERRUPT_DISABLE,
                    pc := Mem.getLE16 s.mem RESET_VECTOR,
                    reset := false, nmi := false, irq := false }, 6) := by
  unfold Mos6502.step
  rw [h]
  rfl

/-- Witness for C6: the spec's reset scenario — vector `$1234` at `$FFFC`,
`reset()` latched, one `step`; afterwards PC = `$1234` and I is set. -/
theorem step_reset_sequence_witness :
    resetState.reset = true ∧
    Mem.getLE16 resetState.mem RESET_VECTOR = 0x1234 ∧
    Mos6502.step resetState =
      .ok ({ resetState with
             sr := srInsert resetState.sr StatusFlags.INTERRUPT_DISABLE,
             pc := Mem.getLE16 resetState.mem RESET_VECTOR,
             reset := false, nmi := false, irq := false }, 6) :=
  ⟨by decide, by decide, step_reset_sequence resetState rfl⟩

/-- C9: a freshly constructed CPU has the RESET line latched, and no
sequence of `nmi()`/`irq()` calls changes that: the first `step` always
performs the reset sequence (I set — SR becomes `$24`, PC loaded from
`$FFFC`, all latches cleared, 6 cycles) and decodes no instruction. -/
theorem new_first_step_resets (mem : Mem) (ls : List IntLine) :
    Mos6502.step (applyLines ls (Mos6502.new mem)) =
      .ok ({ applyLines ls (Mos6502.new mem) with
             sr := 0x24, pc := Mem.getLE16 mem RESET_VECTOR,
             reset := false, nmi := false, irq := false }, 6) := by
  have hr : (applyLines ls (Mos6502.new mem)).reset = true := by
    rw [applyLines_reset]; rfl
  have hsr : (applyLines ls (Mos6502.new mem)).sr = 32 := by
    rw [applyLines_sr]; rfl
  have hm : (applyLines ls (Mos6502.new mem)).mem = mem := by
    rw [applyLines_mem]; rfl
  have h36 : srInsert 32 StatusFlags.INTERRUPT_DISABLE = 36 := by decide
  unfold Mos6502.step
  rw [hr]
  simp [hm, hsr, h36]

/-- C3: with IRQ latched, I clear, RESET and NMI clear, and the byte at PC
being `$00` (BRK), `step` advances PC by 1 before pushing it (the BRK is
skipped, not executed), clears the B flag, pushes PC then SR, sets I,
loads PC from the little-endian word at `$FFFE`, clears the IRQ latch and
returns 7 cycles; the other registers are untouched. -/
theorem step_irq_brk_collision (s : Mos6502)
    (hr : s.reset = false) (hn : s.nmi = false) (hq : s.irq = true)
    (hI : srContains s.sr StatusFlags.INTERRUPT_DISABLE = false)
    (hb : Mem.read s.mem s.pc = 0)
    (hsp : s.sp < 256) (hsr : s.sr < 256) :
    (Mos6502.step s).map
        (fun p => (p.2, p.1.pc, p.1.sr, p.1.sp, p.1.irq,
          Mem.read p.1.mem (256 + (s.sp + 255) % 256),
          Mem.read p.1.mem (256 + s.sp),
          Mem.read p.1.mem (256 + (s.sp + 254) % 256),
          p.1.ac, p.1.x, p.1.y)) =
      .ok (7, Mem.getLE16 s.mem IRQ_VECTOR,
           srInsert (srRemove s.sr StatusFlags.BREAK) StatusFlags.INTERRUPT_DISABLE,
           (s.sp + 253) % 256, false,
           (s.pc + 1) % 256, (s.pc + 1) % 65536 / 256,
           srRemove s.sr StatusFlags.BREAK, s.ac, s.x, s.y) := by
  unfold Mos6502.step
  rw [hr, hn, hq, hI]
  simp only [Bool.not_false, Bool.and_self, if_false, if_true]
  simp only [Mos6502.push16, Mos6502.push8, stackAddr_eq, hb,
             beq_self_eq_true, eq_self_iff_true, if_true, Bool.false_eq_true, if_false]
  rw [maskedPageOffset_stackAddr _ (Nat.mod_lt _ (by norm_num))]
  simp only [Except.map, Except.ok.injEq, Prod.mk.injEq]
  refine ⟨trivial, ?_, trivial, by omega, trivial, ?_, ?_, ?_, trivial⟩
  · simp only [Mem.getLE16, IRQ_VECTOR]
    rw [Mem.read_write_other _ _ _ _ (by omega), Mem.read_write_other _ _ _ _ (by omega),
        Mem.read_write_other _ _ _ _ (by omega), Mem.read_write_other _ _ _ _ (by omega),
        Mem.read_write_other _ _ _ _ (by omega), Mem.read_write_other _ _ _ _ (by omega)]
  · rw [Mem.read_write_other _ _ _ _ (by omega), Mem.read_write_other _ _ _ _ (by omega),
        show 256 + ((s.sp + 254) % 256 + 1) % 256 = 256 + (s.sp + 255) % 256 from by omega,
        Mem.read_write_self _ _ _ (by omega)]
    omega
  · rw [Mem.read_write_other _ _ _ _ (by omega),
        show 256 + (((s.sp + 254) % 256 + 1) % 256 + 1) % 256 = 256 + s.sp from by omega,
        Mem.read_write_self _ _ _ (by omega)]
    omega
  · rw [show 256 + (((s.sp + 254) % 256 + 255) % 256 + 1) % 256 = 256 + (s.sp + 254) % 256
          from by omega,
        Mem.read_write_self _ _ _ (by omega),
        Nat.mod_eq_of_lt (srRemove_lt _ _ hsr)]


/-- Witness for C3: the repo's `brk_bug` scenario — PC = `$1000` holding a
BRK byte, IRQ latched, I clear, IRQ vector `$2000`. -/
theorem step_irq_brk_collision_witness :
    irqBrkState.reset = false ∧ irqBrkState.nmi = false ∧ irqBrkState.irq = true ∧
    srContains irqBrkState.sr StatusFlags.INTERRUPT_DISABLE = false ∧
    Mem.read irqBrkState.mem irqBrkState.pc = 0 ∧
    irqBrkState.sp < 256 ∧ irqBrkState.sr < 256 ∧
    (Mos6502.step irqBrkState).map
        (fun p => (p.2, p.1.pc, p.1.sr, p.1.sp, p.1.irq,
          Mem.read p.1.mem (256 + (irqBrkState.sp + 255) % 256),
          Mem.read p.1.mem (256 + irqBrkState.sp),
          Mem.read p.1.mem (256 + (irqBrkState.sp + 254) % 256),
          p.1.ac, p.1.x, p.1.y)) =
      .ok (7, Mem.getLE16 irqBrkState.mem IRQ_VECTOR,
           srInsert (srRemove irqBrkState.sr StatusFlags.BREAK)
             StatusFlags.INTERRUPT_DISABLE,
           (irqBrkState.sp + 253) % 256, false,
           (irqBrkState.pc + 1) % 256, (irqBrkState.pc + 1) % 65536 / 256,
           srRemove irqBrkState.sr StatusFlags.BREAK,
           irqBrkState.ac, irqBrkState.x, irqBrkState.y) :=
  ⟨rfl, rfl, rfl, by decide, by rfl, by decide, by decide,
   step_irq_brk_collision irqBrkState rfl rfl rfl (by decide) (by rfl)
     (by decide) (by decide)⟩

set_option maxRecDepth 16384 in
/-- C10: for each of the eight branch opcodes, when no interrupt is
serviced and the branch is taken, the target is computed from the PC value
after both the opcode byte and the offset byte have been fetched:
new PC = (p + 2 + signed offset) mod 2^16, where p is the opcode address —
not (p + signed offset) mod 2^16. -/
theorem branch_target_from_post_fetch_pc (s : Mos6502)
    (hr : s.reset = false) (hn : s.nmi = false) (hq : s.irq = false)
    (hop : Mem.read s.mem s.pc ∈ [0x10, 0x30, 0x50, 0x70, 0x90, 0xb0, 0xd0, 0xf0])
    (ht : branchTaken (Mem.read s.mem s.pc) s.sr = true) :
    (Mos6502.step s).map (fun p => p.1.pc) =
      .ok ((s.pc + 2 + signedOffset (Mem.read s.mem ((s.pc + 1) % 65536))) % 65536) := by
  have hd : Mem.read s.mem ((s.pc + 1) % 65536) < 256 := Mem.read_lt _ _
  have hpc2 : ((s.pc + 1) % 65536 + 1) % 65536 = (s.pc + 2) % 65536 := by omega
  simp only [List.mem_cons, List.mem_singleton, List.not_mem_nil, or_false] at hop
  rcases hop with h|h|h|h|h|h|h|h <;>
    (rw [h] at ht; simp only [branchTaken, Bool.not_eq_true'] at ht;
     simp only [Mos6502.step, hr, hn, hq, Bool.false_and, Bool.false_eq_true, if_false,
       Mos6502.nextInstruction, Mos6502.fetch8, h, Instruction.execute, Operand.addr,
       hpc2, ht, if_true, bind, Except.bind, Except.map, eq_self_iff_true,
       Except.ok.injEq];
     rw [u16OffsetSigned_post_fetch _ _ hd])

/-- Witness for C10: BNE `$33` at `$1337` with Z clear branches to
`$1337 + 2 + $33 = $136C`. -/
theorem branch_target_from_post_fetch_pc_witness :
    branchState.reset = false ∧ branchState.nmi = false ∧ branchState.irq = false ∧
    Mem.read branchState.mem branchState.pc ∈
      [0x10, 0x30, 0x50, 0x70, 0x90, 0xb0, 0xd0, 0xf0] ∧
    branchTaken (Mem.read branchState.mem branchState.pc) branchState.sr = true ∧
    (Mos6502.step branchState).map (fun p => p.1.pc) =
      .ok ((branchState.pc + 2 +
            signedOffset (Mem.read branchState.mem ((branchState.pc + 1) % 65536))) % 65536) :=
  ⟨rfl, rfl, rfl, by decide, by decide,
   branch_target_from_post_fetch_pc branchState rfl rfl rfl (by decide) (by decide)⟩
